import Mathlib

/-!
Shallow embedding of the quadrature tachometer module
(`src/Sensor/Sensor.c` of SFMonsun/TM4C129-Tachometer).

The edge-interrupt handler `HandleEdge`, the periodic estimator
`Sensor_GetSpeed`, the initializer `Sensor_Init` and the getters are
translated into pure Lean functions over an explicit state record.
C `float` arithmetic is modelled over `ℚ`; the 32-bit hardware counters
are modelled as `Nat` with explicit reduction modulo `2^32` where the C
code relies on unsigned wraparound.  The wheel circumference
(`WHEEL_CIRCUMFERENCE`, an irrational constant in the source) is kept as
a parameter `C` of the estimator, matching the spec's parametric
statement of the end-to-end property.
-/

namespace Tachometer

/-- Modulus of a 32-bit unsigned counter (timer and edge counters). -/
def UINT32_MOD : Nat := 4294967296

/-- Largest 32-bit value, the literal `0xFFFFFFFFUL` of the source. -/
def UINT32_MAX : Nat := 4294967295

/-- Minimum accepted inter-edge period in timer ticks (`MIN_PERIOD`, 10µs at 120MHz). -/
def MIN_PERIOD : Nat := 1200

/-- Stall timeout in timer ticks (`STOPPED_TIMEOUT`, 0.5s at 120MHz). -/
def STOPPED_TIMEOUT : Nat := 60000000

/-- Minimum measurement window in timer ticks (`MIN_UPDATE_INTERVAL`, 100ms at 120MHz). -/
def MIN_UPDATE_INTERVAL : Nat := 12000000

/-- Timer frequency in Hz (`TIMER_FREQ`). -/
def TIMER_FREQ : ℚ := 120000000

/-- Edges per full wheel rotation (`EDGES_PER_ROTATION`). -/
def EDGES_PER_ROTATION : ℚ := 4

/-- Capacity of the speed moving-average filter (`SPEED_FILTER_SIZE`). -/
def SPEED_FILTER_SIZE : Nat := 3

/-- Capacity of the RPM moving-average filter (`RPM_FILTER_SIZE`). -/
def RPM_FILTER_SIZE : Nat := 3

/-- Direction hysteresis threshold (`DIRECTION_THRESHOLD`). -/
def DIRECTION_THRESHOLD : Int := 5

/-- The `RotationDirection` enumeration of `Sensor.h`. -/
inductive RotationDirection where
  | DIR_STOPPED
  | DIR_FORWARD
  | DIR_REVERSE
deriving DecidableEq, Repr

open RotationDirection

/-- Combined quadrature state `(s1 << 1) | s2` sampled from the two pins. -/
def quadState (s1 s2 : Bool) : Fin 4 :=
  match s1, s2 with
  | false, false => 0
  | false, true  => 1
  | true,  false => 2
  | true,  true  => 3

/-- The 4×4 constant `DIRECTION_TABLE[old_state][new_state]` of `Sensor.c`
(rows are the old state, columns the new state, both encoded `(s1<<1)|s2`). -/
def DIRECTION_TABLE (a b : Fin 4) : Int :=
  match a.val, b.val with
  | 0, 0 => 0  | 0, 1 => 1  | 0, 2 => -1 | 0, 3 => 0
  | 1, 0 => -1 | 1, 1 => 0  | 1, 2 => 0  | 1, 3 => 1
  | 2, 0 => 1  | 2, 1 => 0  | 2, 2 => 0  | 2, 3 => -1
  | 3, 0 => 0  | 3, 1 => -1 | 3, 2 => 1  | 3, 3 => 0
  | _, _ => 0

/-- The complete mutable state of the sensor module: the `volatile` fields
shared with the interrupt handlers and the `static` fields owned by the
estimator. Debug-only statics (`call_count`, `last_int_count`,
`calc_count`, and the unused `last_edge_count`) are omitted; they feed
only commented-out `printf` calls. -/
structure SensorState where
  last_edge_time : Nat
  edge_period : Nat
  new_edge_detected : Bool
  last_state : Fin 4
  direction_counter : Int
  edge_count : Nat
  interrupt_count : Nat
  current_direction : RotationDirection
  current_speed_kmh : ℚ
  current_rpm : ℚ
  accumulated_distance : ℚ
  last_display_edge_count : Nat
  last_display_time : Nat
  speed_buffer : List ℚ
  speed_filter_index : Nat
  speed_filter_count : Nat
  rpm_buffer : List ℚ
  rpm_filter_index : Nat
  rpm_filter_count : Nat
deriving DecidableEq, Repr

/-- The wraparound-safe elapsed-time computation as written inside
`HandleEdge` (`Sensor.c` lines 154–159): the timer counts down, so the
older snapshot is the numerically larger one unless the timer wrapped. -/
def elapsedEdge (older newer : Nat) : Nat :=
  if newer ≤ older then older - newer
  else older + (UINT32_MAX - newer) + 1

/-- The wraparound-safe elapsed-time computation as written inside
`Sensor_GetSpeed` (`Sensor.c` lines 341–345), transcribed from its own
call site so that agreement with `elapsedEdge` is a theorem, not a
definition. -/
def elapsedDisplay (older newer : Nat) : Nat :=
  if newer ≤ older then older - newer
  else older + (UINT32_MAX - newer) + 1

/-- Unsigned 32-bit subtraction `edge_copy - last_display_edge_count`
(`Sensor.c` line 337). -/
def edgesDeltaOf (edge_copy last_display : Nat) : Nat :=
  (edge_copy + UINT32_MOD - last_display) % UINT32_MOD

/-- The edge interrupt handler `HandleEdge` of `Sensor.c`, as a state
transition taking the sampled timer value and the two sampled pin
levels. Mirrors the source: on a state change the elapsed period is
computed; only a period strictly between `MIN_PERIOD` and
`STOPPED_TIMEOUT` counts an edge and moves the (clamped) direction vote;
`last_edge_time`/`last_state` are updated on every state change, counted
or not; `interrupt_count` increments unconditionally. -/
def HandleEdge (current_time : Nat) (s1 s2 : Bool) (st : SensorState) : SensorState :=
  let current_state := quadState s1 s2
  let dir := DIRECTION_TABLE st.last_state current_state
  let st' :=
    if current_state ≠ st.last_state then
      let period := elapsedEdge st.last_edge_time current_time
      let st1 :=
        if MIN_PERIOD < period ∧ period < STOPPED_TIMEOUT then
          let dc :=
            if 0 < dir then
              let d := st.direction_counter + 1
              if 100 < d then 100 else d
            else if dir < 0 then
              let d := st.direction_counter - 1
              if d < -100 then -100 else d
            else st.direction_counter
          { st with
            edge_period := period
            new_edge_detected := true
            edge_count := (st.edge_count + 1) % UINT32_MOD
            direction_counter := dc }
        else st
      { st1 with last_edge_time := current_time, last_state := current_state }
    else st
  { st' with interrupt_count := (st'.interrupt_count + 1) % UINT32_MOD }

/-- One push into a moving-average filter, transcribed from the inlined
filter code of `Sensor_GetSpeed` (`Sensor.c` lines 389–401 for speed,
403–415 for RPM): overwrite the slot at the current index, advance the
index modulo the capacity, grow the fill count up to the capacity, and
return the mean of the first `count` slots. Returns
`(buffer, index, count, filtered mean)`. -/
def filterPush (size : Nat) (buf : List ℚ) (idx cnt : Nat) (v : ℚ) :
    List ℚ × Nat × Nat × ℚ :=
  let buf' := buf.set idx v
  let idx' := (idx + 1) % size
  let cnt' := if cnt < size then cnt + 1 else cnt
  let s := (buf'.take cnt').sum
  (buf', idx', cnt', s / (cnt' : ℚ))

/-- The implausibility check on the raw speed sample (`Sensor.c` lines
376–380): above 200 km/h the previous filtered speed is substituted,
below 0 the sample is clamped to 0. -/
def clampSpeed (prev v : ℚ) : ℚ :=
  if 200 < v then prev else if v < 0 then 0 else v

/-- The implausibility clamp on the raw RPM sample (`Sensor.c` lines
383–387). -/
def clampRpm (v : ℚ) : ℚ :=
  if 99999 < v then 99999 else if v < 0 then 0 else v

/-- The direction-hysteresis update (`Sensor.c` lines 418–423): flip to
forward above `+DIRECTION_THRESHOLD`, to reverse below
`-DIRECTION_THRESHOLD`, otherwise hold the previous value. -/
def resolveDirection (vote : Int) (prev : RotationDirection) : RotationDirection :=
  if DIRECTION_THRESHOLD < vote then DIR_FORWARD
  else if vote < -DIRECTION_THRESHOLD then DIR_REVERSE
  else prev

/-- The successful-estimation branch of `Sensor_GetSpeed` (`Sensor.c`
lines 348–430), for wheel circumference `C`: compute the raw RPM and
speed over the window, clamp, push into both filters, resolve direction,
accumulate distance, and advance the measurement window. -/
def computeCycle (C : ℚ) (current_time : Nat) (st : SensorState) : SensorState × ℚ :=
  let edge_copy := st.edge_count
  let dir_copy := st.direction_counter
  let edges_delta := edgesDeltaOf edge_copy st.last_display_edge_count
  let time_delta := elapsedDisplay st.last_display_time current_time
  let time_seconds : ℚ := (time_delta : ℚ) / TIMER_FREQ
  let rotations : ℚ := (edges_delta : ℚ) / EDGES_PER_ROTATION
  let rpm0 : ℚ := rotations / time_seconds * 60
  let velocity_mps : ℚ := rotations * C / time_seconds
  let velocity_kmh0 : ℚ := velocity_mps * (36 / 10)
  let velocity_kmh := clampSpeed st.current_speed_kmh velocity_kmh0
  let rpm := clampRpm rpm0
  let sp := filterPush SPEED_FILTER_SIZE st.speed_buffer st.speed_filter_index
              st.speed_filter_count velocity_kmh
  let rp := filterPush RPM_FILTER_SIZE st.rpm_buffer st.rpm_filter_index
              st.rpm_filter_count rpm
  let st' := { st with
    speed_buffer := sp.1
    speed_filter_index := sp.2.1
    speed_filter_count := sp.2.2.1
    current_speed_kmh := sp.2.2.2
    rpm_buffer := rp.1
    rpm_filter_index := rp.2.1
    rpm_filter_count := rp.2.2.1
    current_rpm := rp.2.2.2
    current_direction := resolveDirection dir_copy st.current_direction
    accumulated_distance := st.accumulated_distance + rotations * C
    last_display_edge_count := edge_copy
    last_display_time := current_time }
  (st', st'.current_speed_kmh)

/-- The stall branch of `Sensor_GetSpeed` (`Sensor.c` lines 432–452):
zero the cached outputs, mark the motor stopped, clear both filters
(fill counts to 0; the indices are NOT reset in the source), and advance
the window so the stall does not re-trigger. -/
def stallCycle (current_time : Nat) (st : SensorState) : SensorState × ℚ :=
  let st' := { st with
    current_speed_kmh := 0
    current_rpm := 0
    current_direction := DIR_STOPPED
    speed_buffer := List.replicate SPEED_FILTER_SIZE 0
    speed_filter_count := 0
    rpm_buffer := List.replicate RPM_FILTER_SIZE 0
    rpm_filter_count := 0
    last_display_edge_count := st.edge_count
    last_display_time := current_time }
  (st', st'.current_speed_kmh)

/-- The estimator `Sensor_GetSpeed` of `Sensor.c`, with the wheel
circumference `C` as a parameter and the sampled timer value as input.
Returns the new state together with the returned (filtered) speed. -/
def Sensor_GetSpeed (C : ℚ) (current_time : Nat) (st : SensorState) : SensorState × ℚ :=
  if MIN_UPDATE_INTERVAL ≤ elapsedDisplay st.last_display_time current_time ∧
      0 < edgesDeltaOf st.edge_count st.last_display_edge_count then
    computeCycle C current_time st
  else if STOPPED_TIMEOUT < elapsedDisplay st.last_display_time current_time then
    stallCycle current_time st
  else (st, st.current_speed_kmh)

/-- The state established by `Sensor_Init` (`Sensor.c` lines 205–293):
pins sampled as `s1 s2`, the two timer reads `t1` (line 255) and `t2`
(line 270). `current_rpm` starts at 0 from its static initializer. -/
def Sensor_Init (s1 s2 : Bool) (t1 t2 : Nat) : SensorState where
  last_edge_time := t1
  edge_period := 0
  new_edge_detected := false
  last_state := quadState s1 s2
  direction_counter := 0
  edge_count := 0
  interrupt_count := 0
  current_direction := DIR_STOPPED
  current_speed_kmh := 0
  current_rpm := 0
  accumulated_distance := 0
  last_display_edge_count := 0
  last_display_time := t2
  speed_buffer := List.replicate SPEED_FILTER_SIZE 0
  speed_filter_index := 0
  speed_filter_count := 0
  rpm_buffer := List.replicate RPM_FILTER_SIZE 0
  rpm_filter_index := 0
  rpm_filter_count := 0

/-- `Sensor_GetRPM` of `Sensor.c`. -/
def Sensor_GetRPM (st : SensorState) : ℚ := st.current_rpm

/-- `Sensor_GetDirection` of `Sensor.c`. -/
def Sensor_GetDirection (st : SensorState) : RotationDirection := st.current_direction

/-- `Sensor_GetDistance` of `Sensor.c`. -/
def Sensor_GetDistance (st : SensorState) : ℚ := st.accumulated_distance

/-- `Sensor_ResetDistance` of `Sensor.c`. -/
def Sensor_ResetDistance (st : SensorState) : SensorState :=
  { st with accumulated_distance := 0 }

/-- One external stimulus to the module: an edge interrupt (with sampled
time and pin levels) or a main-loop poll of `Sensor_GetSpeed` (with the
wheel circumference and sampled time). -/
inductive SensorEvent where
  | edge (t : Nat) (s1 s2 : Bool)
  | poll (C : ℚ) (t : Nat)

/-- Apply one stimulus to the state. -/
def stepEvent (st : SensorState) : SensorEvent → SensorState
  | .edge t s1 s2 => HandleEdge t s1 s2 st
  | .poll C t => (Sensor_GetSpeed C t st).1

/-- Run an arbitrary interleaving of edge interrupts and polls. -/
def runEvents (st : SensorState) (evs : List SensorEvent) : SensorState :=
  evs.foldl stepEvent st

/-- Push a whole list of samples through a moving-average filter,
carrying `(buffer, index, count, last filtered output)`. -/
def filterRun (size : Nat) (start : List ℚ × Nat × Nat × ℚ) (vs : List ℚ) :
    List ℚ × Nat × Nat × ℚ :=
  vs.foldl (fun r v => filterPush size r.1 r.2.1 r.2.2.1 v) start

/-- Range invariant maintained by every reachable state: the two filter
buffers have their declared capacity, their fill counts are within
capacity, every slot and both cached outputs lie inside the clamp
ranges `[0, 200]` km/h and `[0, 99999]` RPM. -/
def RangeInv (st : SensorState) : Prop :=
  st.speed_buffer.length = 3 ∧
  st.rpm_buffer.length = 3 ∧
  st.speed_filter_count ≤ 3 ∧
  st.rpm_filter_count ≤ 3 ∧
  (∀ x ∈ st.speed_buffer, 0 ≤ x ∧ x ≤ 200) ∧
  (∀ x ∈ st.rpm_buffer, 0 ≤ x ∧ x ≤ 99999) ∧
  (0 ≤ st.current_speed_kmh ∧ st.current_speed_kmh ≤ 200) ∧
  (0 ≤ st.current_rpm ∧ st.current_rpm ≤ 99999)

/-- A concrete mid-run state used to instantiate theorems: 100 new edges
over exactly one `MIN_UPDATE_INTERVAL` window, full filters, previous
filtered speed 20 km/h. -/
def testState : SensorState where
  last_edge_time := 0
  edge_period := 0
  new_edge_detected := false
  last_state := 3
  direction_counter := 0
  edge_count := 100
  interrupt_count := 0
  current_direction := DIR_STOPPED
  current_speed_kmh := 20
  current_rpm := 50
  accumulated_distance := 7
  last_display_edge_count := 0
  last_display_time := 12000000
  speed_buffer := [10, 20, 30]
  speed_filter_index := 0
  speed_filter_count := 3
  rpm_buffer := [40, 50, 60]
  rpm_filter_index := 0
  rpm_filter_count := 3

/-- Like `testState` but with the previous edge 2000 ticks ago, so a new
edge at time 0 is accepted (2000 is strictly between `MIN_PERIOD` and
`STOPPED_TIMEOUT`). -/
def testStateB : SensorState :=
  { testState with last_edge_time := 2000 }

/-- Like `testState` but with the previous edge 100 ticks ago, so a new
edge at time 0 is rejected as bounce (100 ≤ `MIN_PERIOD`). -/
def testStateC : SensorState :=
  { testState with last_edge_time := 100 }

/-- A concrete stalled state: no new edges and the last window started
60000001 ticks ago, just past `STOPPED_TIMEOUT`. -/
def testStateStall : SensorState :=
  { testState with
    edge_count := 100
    last_display_edge_count := 100
    last_display_time := 60000001 }

/-! ## Branch lemmas for the estimator -/

lemma getSpeed_eq_computeCycle (C : ℚ) (t : Nat) (st : SensorState)
    (h1 : MIN_UPDATE_INTERVAL ≤ elapsedDisplay st.last_display_time t)
    (h2 : 0 < edgesDeltaOf st.edge_count st.last_display_edge_count) :
    Sensor_GetSpeed C t st = computeCycle C t st := by
  unfold Sensor_GetSpeed
  rw [if_pos ⟨h1, h2⟩]

lemma getSpeed_eq_stallCycle (C : ℚ) (t : Nat) (st : SensorState)
    (h1 : ¬ (MIN_UPDATE_INTERVAL ≤ elapsedDisplay st.last_display_time t ∧
      0 < edgesDeltaOf st.edge_count st.last_display_edge_count))
    (h2 : STOPPED_TIMEOUT < elapsedDisplay st.last_display_time t) :
    Sensor_GetSpeed C t st = stallCycle t st := by
  unfold Sensor_GetSpeed
  rw [if_neg h1, if_pos h2]

lemma getSpeed_eq_noop (C : ℚ) (t : Nat) (st : SensorState)
    (h1 : ¬ (MIN_UPDATE_INTERVAL ≤ elapsedDisplay st.last_display_time t ∧
      0 < edgesDeltaOf st.edge_count st.last_display_edge_count))
    (h2 : ¬ STOPPED_TIMEOUT < elapsedDisplay st.last_display_time t) :
    Sensor_GetSpeed C t st = (st, st.current_speed_kmh) := by
  unfold Sensor_GetSpeed
  rw [if_neg h1, if_neg h2]

/-! ## Characterizations of the edge handler -/

lemma HandleEdge_accept (t : Nat) (s1 s2 : Bool) (st : SensorState)
    (hne : quadState s1 s2 ≠ st.last_state)
    (hcond : MIN_PERIOD < elapsedEdge st.last_edge_time t ∧
      elapsedEdge st.last_edge_time t < STOPPED_TIMEOUT) :
    HandleEdge t s1 s2 st = { st with
      edge_period := elapsedEdge st.last_edge_time t
      new_edge_detected := true
      edge_count := (st.edge_count + 1) % UINT32_MOD
      direction_counter :=
        if 0 < DIRECTION_TABLE st.last_state (quadState s1 s2) then
          (if 100 < st.direction_counter + 1 then 100 else st.direction_counter + 1)
        else if DIRECTION_TABLE st.last_state (quadState s1 s2) < 0 then
          (if st.direction_counter - 1 < -100 then -100 else st.direction_counter - 1)
        else st.direction_counter
      last_edge_time := t
      last_state := quadState s1 s2
      interrupt_count := (st.interrupt_count + 1) % UINT32_MOD } := by
  simp only [HandleEdge]
  rw [if_pos hne, if_pos hcond]

lemma HandleEdge_reject (t : Nat) (s1 s2 : Bool) (st : SensorState)
    (hne : quadState s1 s2 ≠ st.last_state)
    (hcond : ¬ (MIN_PERIOD < elapsedEdge st.last_edge_time t ∧
      elapsedEdge st.last_edge_time t < STOPPED_TIMEOUT)) :
    HandleEdge t s1 s2 st = { st with
      last_edge_time := t
      last_state := quadState s1 s2
      interrupt_count := (st.interrupt_count + 1) % UINT32_MOD } := by
  simp only [HandleEdge]
  rw [if_pos hne, if_neg hcond]

/-! ## Claim theorems -/

/-- Claim C4: the wraparound-safe elapsed-time computation is identical
at its two call sites (`HandleEdge` and `Sensor_GetSpeed`), equals
`older - newer` when `older ≥ newer` and
`older + (0xFFFFFFFF - newer) + 1` otherwise — that is,
`(older - newer) mod 2^32`, always non-negative — and in particular
`elapsed(5, 4294967290) = 11`. -/
theorem C4_elapsed_wraparound (o n : Nat) (ho : o < UINT32_MOD) (hn : n < UINT32_MOD) :
    elapsedEdge o n = elapsedDisplay o n ∧
    elapsedEdge o n = (o + UINT32_MOD - n) % UINT32_MOD ∧
    (n ≤ o → elapsedEdge o n = o - n) ∧
    (o < n → elapsedEdge o n = o + (UINT32_MAX - n) + 1) ∧
    elapsedEdge 5 4294967290 = 11 := by
  refine ⟨rfl, ?_, ?_, ?_, by decide⟩ <;>
    simp only [elapsedEdge, UINT32_MOD, UINT32_MAX] at * <;>
    split_ifs <;> omega

/-- Witness for C4 at the spec's concrete input. -/
theorem C4_elapsed_wraparound_witness :
    elapsedEdge 5 4294967290 = 11 ∧ elapsedEdge 5 4294967290 = elapsedDisplay 5 4294967290 := by
  have h := C4_elapsed_wraparound 5 4294967290 (by decide) (by decide)
  exact ⟨h.2.2.2.2, h.1⟩

/-- Claim C3 (code bug): against the claim (and the code's own header
comments, which call 11→01→00→10→11 the forward sequence), every step of
that sequence decodes to −1 in `DIRECTION_TABLE`, and every step of the
reverse sequence 11→10→00→01→11 decodes to +1; a pair with
`old_state = new_state` decodes to 0, and such a transition counts no
edge and moves no vote (shown on a concrete invocation). -/
theorem C3_direction_table_sign :
    DIRECTION_TABLE 3 1 = -1 ∧ DIRECTION_TABLE 1 0 = -1 ∧
    DIRECTION_TABLE 0 2 = -1 ∧ DIRECTION_TABLE 2 3 = -1 ∧
    DIRECTION_TABLE 3 2 = 1 ∧ DIRECTION_TABLE 2 0 = 1 ∧
    DIRECTION_TABLE 0 1 = 1 ∧ DIRECTION_TABLE 1 3 = 1 ∧
    (∀ a : Fin 4, DIRECTION_TABLE a a = 0) ∧
    (HandleEdge 0 true true testState).edge_count = testState.edge_count ∧
    (HandleEdge 0 true true testState).direction_counter = testState.direction_counter := by
  refine ⟨rfl, rfl, rfl, rfl, rfl, rfl, rfl, rfl, ?_, by decide, by decide⟩
  decide

/-- Claim C6: the moving-average filter has overwrite-oldest push
semantics with the filtered output equal to the mean of the first
`count` slots; pushing 10, 20, 30 into an empty capacity-3 filter
yields 20, and a fourth push of 40 evicts the 10 and yields 30. Both
estimator filters instantiate it with capacity 3. -/
theorem C6_moving_average (buf : List ℚ) (idx cnt : Nat) (v : ℚ)
    (_hlen : buf.length = 3) (hcnt : cnt ≤ 3) :
    (filterPush 3 buf idx cnt v).1 = buf.set idx v ∧
    (filterPush 3 buf idx cnt v).2.2.1 = min (cnt + 1) 3 ∧
    (filterPush 3 buf idx cnt v).2.2.2 =
      ((buf.set idx v).take (min (cnt + 1) 3)).sum / ((min (cnt + 1) 3 : Nat) : ℚ) ∧
    SPEED_FILTER_SIZE = 3 ∧ RPM_FILTER_SIZE = 3 ∧
    filterRun 3 ([0, 0, 0], 0, 0, 0) [10, 20, 30] = ([10, 20, 30], 0, 3, 20) ∧
    filterRun 3 ([0, 0, 0], 0, 0, 0) [10, 20, 30, 40] = ([40, 20, 30], 1, 3, 30) := by
  have hc : (if cnt < 3 then cnt + 1 else cnt) = min (cnt + 1) 3 := by
    rw [Nat.min_def]; split_ifs <;> omega
  refine ⟨rfl, ?_, ?_, rfl, rfl, ?_, ?_⟩
  · simp only [filterPush, hc]
  · simp only [filterPush, hc]
  · norm_num [filterRun, filterPush, List.foldl]
  · norm_num [filterRun, filterPush, List.foldl]

/-- Claim C2: on a state-changing invocation of the edge handler, an
elapsed time ≤ `MIN_PERIOD` still updates `last_state`/`last_edge_time`
but counts no edge and moves no vote, while an elapsed time strictly
between `MIN_PERIOD` and `STOPPED_TIMEOUT` counts exactly one edge,
moves the vote by the decoded table vote clamped to `[-100, 100]`, and
records the new state and time. -/
theorem C2_edge_debounce_accept (t : Nat) (s1 s2 : Bool) (st : SensorState)
    (hne : quadState s1 s2 ≠ st.last_state) :
    (elapsedEdge st.last_edge_time t ≤ MIN_PERIOD →
      (HandleEdge t s1 s2 st).edge_count = st.edge_count ∧
      (HandleEdge t s1 s2 st).direction_counter = st.direction_counter ∧
      (HandleEdge t s1 s2 st).last_state = quadState s1 s2 ∧
      (HandleEdge t s1 s2 st).last_edge_time = t) ∧
    (MIN_PERIOD < elapsedEdge st.last_edge_time t →
      elapsedEdge st.last_edge_time t < STOPPED_TIMEOUT →
      (HandleEdge t s1 s2 st).edge_count = (st.edge_count + 1) % UINT32_MOD ∧
      (HandleEdge t s1 s2 st).direction_counter =
        (if 0 < DIRECTION_TABLE st.last_state (quadState s1 s2) then
          min (st.direction_counter + 1) 100
        else if DIRECTION_TABLE st.last_state (quadState s1 s2) < 0 then
          max (st.direction_counter - 1) (-100)
        else st.direction_counter) ∧
      (HandleEdge t s1 s2 st).last_state = quadState s1 s2 ∧
      (HandleEdge t s1 s2 st).last_edge_time = t) := by
  constructor
  · intro hle
    have hcond : ¬ (MIN_PERIOD < elapsedEdge st.last_edge_time t ∧
        elapsedEdge st.last_edge_time t < STOPPED_TIMEOUT) := by omega
    rw [HandleEdge_reject t s1 s2 st hne hcond]
    exact ⟨rfl, rfl, rfl, rfl⟩
  · intro hlo hhi
    rw [HandleEdge_accept t s1 s2 st hne ⟨hlo, hhi⟩]
    refine ⟨rfl, ?_, rfl, rfl⟩
    dsimp only
    split_ifs <;> omega

/-- Witness for C2: an accepted edge (interval 2000 ticks, transition
11→01, vote −1) and a rejected edge (interval 100 ticks). -/
theorem C2_edge_debounce_accept_witness :
    (HandleEdge 0 false true testStateB).edge_count = 101 ∧
    (HandleEdge 0 false true testStateB).direction_counter = -1 ∧
    (HandleEdge 0 false true testStateB).last_edge_time = 0 ∧
    (HandleEdge 0 false true testStateC).edge_count = 100 ∧
    (HandleEdge 0 false true testStateC).direction_counter = 0 ∧
    (HandleEdge 0 false true testStateC).last_edge_time = 0 := by
  have hB := (C2_edge_debounce_accept 0 false true testStateB (by decide)).2
    (by decide) (by decide)
  have hC := (C2_edge_debounce_accept 0 false true testStateC (by decide)).1 (by decide)
  refine ⟨?_, ?_, hB.2.2.2, ?_, ?_, hC.2.2.2⟩
  · rw [hB.1]; decide
  · rw [hB.2.1]; decide
  · rw [hC.1]; decide
  · rw [hC.2.1]; decide

/-- Claim C7: during a successful estimation cycle the motor state is
updated by the hysteresis rule on the snapshotted vote: above +5 it
becomes forward, below −5 reverse, and anywhere in `[-5, 5]` the
previous state is held; a vote of 6 flips to forward and a later vote
of 5 does not flip back. -/
theorem C7_direction_hysteresis (C : ℚ) (t : Nat) (st : SensorState)
    (h1 : MIN_UPDATE_INTERVAL ≤ elapsedDisplay st.last_display_time t)
    (h2 : 0 < edgesDeltaOf st.edge_count st.last_display_edge_count) :
    (Sensor_GetSpeed C t st).1.current_direction =
      resolveDirection st.direction_counter st.current_direction ∧
    (∀ v : Int, ∀ p, 5 < v → resolveDirection v p = DIR_FORWARD) ∧
    (∀ v : Int, ∀ p, v < -5 → resolveDirection v p = DIR_REVERSE) ∧
    (∀ v : Int, ∀ p, -5 ≤ v → v ≤ 5 → resolveDirection v p = p) ∧
    resolveDirection 6 DIR_STOPPED = DIR_FORWARD ∧
    resolveDirection 5 DIR_FORWARD = DIR_FORWARD ∧
    resolveDirection (-6) DIR_FORWARD = DIR_REVERSE := by
  rw [getSpeed_eq_computeCycle C t st h1 h2]
  refine ⟨rfl, ?_, ?_, ?_, by decide, by decide, by decide⟩
  · intro v p hv
    rw [resolveDirection, if_pos (by simp [DIRECTION_THRESHOLD]; omega)]
  · intro v p hv
    rw [resolveDirection, if_neg (by simp [DIRECTION_THRESHOLD]; omega),
      if_pos (by simp [DIRECTION_THRESHOLD]; omega)]
  · intro v p hv1 hv2
    rw [resolveDirection, if_neg (by simp [DIRECTION_THRESHOLD]; omega),
      if_neg (by simp [DIRECTION_THRESHOLD]; omega)]

/-- Witness for C7: the concrete successful cycle holds the previous
direction since its snapshotted vote is 0. -/
theorem C7_direction_hysteresis_witness :
    (Sensor_GetSpeed 1 0 testState).1.current_direction = DIR_STOPPED := by
  have h := C7_direction_hysteresis 1 0 testState (by decide) (by decide)
  rw [h.1]
  exact h.2.2.2.1 0 DIR_STOPPED (by decide) (by decide)

/-- Claim C8: when no successful computation occurs and the window time
exceeds `STOPPED_TIMEOUT`, the estimator forces both filtered outputs to
0 (so `Sensor_GetSpeed` returns 0 and `Sensor_GetRPM` returns 0), sets
the direction to stopped, clears both filter buffers with fill counts 0,
and still advances the measurement window to the snapshot. -/
theorem C8_stall (C : ℚ) (t : Nat) (st : SensorState)
    (h1 : elapsedDisplay st.last_display_time t < MIN_UPDATE_INTERVAL ∨
      edgesDeltaOf st.edge_count st.last_display_edge_count = 0)
    (h2 : STOPPED_TIMEOUT < elapsedDisplay st.last_display_time t) :
    (Sensor_GetSpeed C t st).2 = 0 ∧
    (Sensor_GetSpeed C t st).1.current_speed_kmh = 0 ∧
    Sensor_GetRPM (Sensor_GetSpeed C t st).1 = 0 ∧
    Sensor_GetDirection (Sensor_GetSpeed C t st).1 = DIR_STOPPED ∧
    (Sensor_GetSpeed C t st).1.speed_buffer = List.replicate SPEED_FILTER_SIZE 0 ∧
    (Sensor_GetSpeed C t st).1.speed_filter_count = 0 ∧
    (Sensor_GetSpeed C t st).1.rpm_buffer = List.replicate RPM_FILTER_SIZE 0 ∧
    (Sensor_GetSpeed C t st).1.rpm_filter_count = 0 ∧
    (Sensor_GetSpeed C t st).1.last_display_edge_count = st.edge_count ∧
    (Sensor_GetSpeed C t st).1.last_display_time = t := by
  have hno : ¬ (MIN_UPDATE_INTERVAL ≤ elapsedDisplay st.last_display_time t ∧
      0 < edgesDeltaOf st.edge_count st.last_display_edge_count) := by
    rcases h1 with h | h
    · intro hc; omega
    · intro hc; omega
  rw [getSpeed_eq_stallCycle C t st hno h2]
  exact ⟨rfl, rfl, rfl, rfl, rfl, rfl, rfl, rfl, rfl, rfl⟩

/-- Witness for C8: the concrete stalled state, 60000001 ticks without a
new edge. -/
theorem C8_stall_witness :
    (Sensor_GetSpeed 1 0 testStateStall).2 = 0 ∧
    Sensor_GetRPM (Sensor_GetSpeed 1 0 testStateStall).1 = 0 ∧
    Sensor_GetDirection (Sensor_GetSpeed 1 0 testStateStall).1 = DIR_STOPPED ∧
    (Sensor_GetSpeed 1 0 testStateStall).1.speed_filter_count = 0 := by
  have h := C8_stall 1 0 testStateStall (Or.inr (by decide)) (by decide)
  exact ⟨h.1, h.2.2.1, h.2.2.2.1, h.2.2.2.2.2.1⟩

/-- Claim C9: a call with too little elapsed time, or with no new edges
but not yet stalled, is a pure no-op: it returns the cached filtered
speed and leaves the whole state unchanged, so repeating it is
idempotent. -/
theorem C9_noop (C : ℚ) (t : Nat) (st : SensorState)
    (h : elapsedDisplay st.last_display_time t < MIN_UPDATE_INTERVAL ∨
      (edgesDeltaOf st.edge_count st.last_display_edge_count = 0 ∧
        elapsedDisplay st.last_display_time t ≤ STOPPED_TIMEOUT)) :
    Sensor_GetSpeed C t st = (st, st.current_speed_kmh) ∧
    Sensor_GetSpeed C t (Sensor_GetSpeed C t st).1 = (st, st.current_speed_kmh) := by
  have hno : ¬ (MIN_UPDATE_INTERVAL ≤ elapsedDisplay st.last_display_time t ∧
      0 < edgesDeltaOf st.edge_count st.last_display_edge_count) := by
    rcases h with h | ⟨h, -⟩
    · intro hc; omega
    · intro hc; omega
  have hstall : ¬ STOPPED_TIMEOUT < elapsedDisplay st.last_display_time t := by
    rcases h with h | ⟨-, h⟩
    · simp only [MIN_UPDATE_INTERVAL, STOPPED_TIMEOUT] at *; omega
    · omega
  have h1 := getSpeed_eq_noop C t st hno hstall
  exact ⟨h1, by rw [h1, h1]⟩

/-- Witness for C9: polling again at the very tick the window opened
(elapsed time 0) changes nothing. -/
theorem C9_noop_witness :
    Sensor_GetSpeed 1 12000000 testState = (testState, testState.current_speed_kmh) ∧
    Sensor_GetSpeed 1 12000000 (Sensor_GetSpeed 1 12000000 testState).1 =
      (testState, testState.current_speed_kmh) :=
  C9_noop 1 12000000 testState (Or.inl (by decide))

/-- Witness for C6: an empty capacity-3 filter receiving its first push. -/
theorem C6_moving_average_witness :
    (filterPush 3 [0, 0, 0] 0 0 10).1 = [(10 : ℚ), 0, 0] ∧
    (filterPush 3 [0, 0, 0] 0 0 10).2.2.1 = 1 ∧
    (filterPush 3 [0, 0, 0] 0 0 10).2.2.2 = 10 := by
  have h := C6_moving_average [0, 0, 0] 0 0 10 (by decide) (by decide)
  refine ⟨?_, ?_, ?_⟩
  · rw [h.1]; norm_num
  · rw [h.2.1]; decide
  · rw [h.2.2.1]; norm_num

/-- Claim C1 counterexample: in the concrete successful cycle below the
raw speed is 900 km/h (> 200), yet the speed filter buffer and the
filtered speed output both change — the previous filtered speed is
pushed into the buffer rather than the sample being discarded, refuting
the claim that the buffer, fill count and output are all unchanged. -/
theorem C1_counterexample :
    MIN_UPDATE_INTERVAL ≤ elapsedDisplay testState.last_display_time 0 ∧
    0 < edgesDeltaOf testState.edge_count testState.last_display_edge_count ∧
    200 < (edgesDeltaOf testState.edge_count testState.last_display_edge_count : ℚ) /
        EDGES_PER_ROTATION * 1 /
        ((elapsedDisplay testState.last_display_time 0 : ℚ) / TIMER_FREQ) * (36 / 10) ∧
    (Sensor_GetSpeed 1 0 testState).1.speed_buffer ≠ testState.speed_buffer ∧
    (Sensor_GetSpeed 1 0 testState).2 ≠ testState.current_speed_kmh := by
  refine ⟨by decide, by decide, ?_, ?_, ?_⟩
  · norm_num [testState, edgesDeltaOf, elapsedDisplay, UINT32_MOD, TIMER_FREQ,
      EDGES_PER_ROTATION]
  · norm_num [Sensor_GetSpeed, computeCycle, filterPush, clampSpeed, clampRpm,
      resolveDirection, testState, edgesDeltaOf, elapsedDisplay, UINT32_MOD,
      TIMER_FREQ, EDGES_PER_ROTATION, SPEED_FILTER_SIZE, RPM_FILTER_SIZE,
      MIN_UPDATE_INTERVAL, DIRECTION_THRESHOLD]
  · norm_num [Sensor_GetSpeed, computeCycle, filterPush, clampSpeed, clampRpm,
      resolveDirection, testState, edgesDeltaOf, elapsedDisplay, UINT32_MOD,
      TIMER_FREQ, EDGES_PER_ROTATION, SPEED_FILTER_SIZE, RPM_FILTER_SIZE,
      MIN_UPDATE_INTERVAL, DIRECTION_THRESHOLD]

/-- Claim C1 as amended: in a successful estimation cycle whose raw
speed exceeds 200 km/h, the sample value is replaced by the previous
filtered speed, which IS pushed into the speed filter buffer (the fill
count advances as on any push), so the buffer and the filtered output
may change; a raw speed below 0 is clamped to 0 before being pushed. -/
theorem C1_overlimit_speed_hold (C : ℚ) (t : Nat) (st : SensorState)
    (h1 : MIN_UPDATE_INTERVAL ≤ elapsedDisplay st.last_display_time t)
    (h2 : 0 < edgesDeltaOf st.edge_count st.last_display_edge_count) :
    (200 < (edgesDeltaOf st.edge_count st.last_display_edge_count : ℚ) /
        EDGES_PER_ROTATION * C /
        ((elapsedDisplay st.last_display_time t : ℚ) / TIMER_FREQ) * (36 / 10) →
      (Sensor_GetSpeed C t st).1.speed_buffer =
        st.speed_buffer.set st.speed_filter_index st.current_speed_kmh) ∧
    ((edgesDeltaOf st.edge_count st.last_display_edge_count : ℚ) /
        EDGES_PER_ROTATION * C /
        ((elapsedDisplay st.last_display_time t : ℚ) / TIMER_FREQ) * (36 / 10) < 0 →
      (Sensor_GetSpeed C t st).1.speed_buffer =
        st.speed_buffer.set st.speed_filter_index 0) ∧
    (Sensor_GetSpeed C t st).1.speed_filter_count =
      (if st.speed_filter_count < SPEED_FILTER_SIZE then st.speed_filter_count + 1
       else st.speed_filter_count) := by
  rw [getSpeed_eq_computeCycle C t st h1 h2]
  refine ⟨?_, ?_, rfl⟩
  · intro h
    show (st.speed_buffer.set st.speed_filter_index _) = _
    rw [clampSpeed, if_pos h]
  · intro h
    show (st.speed_buffer.set st.speed_filter_index _) = _
    rw [clampSpeed, if_neg (by linarith), if_pos h]

/-- Witness for C1 (amended): the 900 km/h raw sample of the concrete
cycle makes the estimator push the previous filtered speed 20. -/
theorem C1_overlimit_speed_hold_witness :
    (Sensor_GetSpeed 1 0 testState).1.speed_buffer =
      testState.speed_buffer.set testState.speed_filter_index testState.current_speed_kmh ∧
    (Sensor_GetSpeed 1 0 testState).1.speed_filter_count = 3 := by
  have h := C1_overlimit_speed_hold 1 0 testState (by decide) (by decide)
  constructor
  · exact h.1 (by norm_num [testState, edgesDeltaOf, elapsedDisplay, UINT32_MOD,
      TIMER_FREQ, EDGES_PER_ROTATION])
  · rw [h.2.2]; decide

/-- Claim C5: a successful estimation cycle with `EDGES_PER_ROTATION = 4`
pushes `clampRpm((edges_delta/4)/(elapsed/F)*60)` into the RPM filter
and `clampSpeed(prev, (edges_delta/4)*C/(elapsed/F)*3.6)` into the speed
filter (the raw samples are exactly the spec's formulas, clamped),
increases the distance by exactly `(edges_delta/4)*C`, and advances the
measurement window to `(snapshot edge count, now)`. -/
theorem C5_successful_cycle (C : ℚ) (t : Nat) (st : SensorState)
    (h1 : MIN_UPDATE_INTERVAL ≤ elapsedDisplay st.last_display_time t)
    (h2 : 0 < edgesDeltaOf st.edge_count st.last_display_edge_count) :
    (Sensor_GetSpeed C t st).1.rpm_buffer =
      st.rpm_buffer.set st.rpm_filter_index
        (clampRpm ((edgesDeltaOf st.edge_count st.last_display_edge_count : ℚ) / 4 /
          ((elapsedDisplay st.last_display_time t : ℚ) / TIMER_FREQ) * 60)) ∧
    (Sensor_GetSpeed C t st).1.speed_buffer =
      st.speed_buffer.set st.speed_filter_index
        (clampSpeed st.current_speed_kmh
          ((edgesDeltaOf st.edge_count st.last_display_edge_count : ℚ) / 4 * C /
            ((elapsedDisplay st.last_display_time t : ℚ) / TIMER_FREQ) * (36 / 10))) ∧
    (Sensor_GetSpeed C t st).1.accumulated_distance =
      st.accumulated_distance +
        (edgesDeltaOf st.edge_count st.last_display_edge_count : ℚ) / 4 * C ∧
    (Sensor_GetSpeed C t st).1.last_display_edge_count = st.edge_count ∧
    (Sensor_GetSpeed C t st).1.last_display_time = t := by
  rw [getSpeed_eq_computeCycle C t st h1 h2]
  simp only [computeCycle, filterPush, EDGES_PER_ROTATION, and_true, true_and]
  try exact ⟨rfl, rfl, rfl, rfl, rfl⟩
  try trivial

/-- Witness for C5: the concrete cycle (100 edges in 0.1 s, circumference
1 m) yields raw RPM 15000, distance gain 25 m, and the advanced window. -/
theorem C5_successful_cycle_witness :
    (Sensor_GetSpeed 1 0 testState).1.accumulated_distance = 32 ∧
    (Sensor_GetSpeed 1 0 testState).1.rpm_buffer = [15000, 50, 60] ∧
    (Sensor_GetSpeed 1 0 testState).1.last_display_edge_count = 100 ∧
    (Sensor_GetSpeed 1 0 testState).1.last_display_time = 0 := by
  have h := C5_successful_cycle 1 0 testState (by decide) (by decide)
  refine ⟨?_, ?_, ?_, ?_⟩
  · rw [h.2.2.1]
    try norm_num [testState, edgesDeltaOf, UINT32_MOD]
  · rw [h.1]
    try norm_num [testState, edgesDeltaOf, elapsedDisplay, UINT32_MOD,
      TIMER_FREQ, clampRpm]
  · rw [h.2.2.2.1]
    try decide
  · rw [h.2.2.2.2]
    try decide

/-! ## Range invariant machinery for C10 -/

lemma mean_bounds (l : List ℚ) (lo hi : ℚ) (h : ∀ x ∈ l, lo ≤ x ∧ x ≤ hi)
    (hne : 0 < l.length) :
    lo ≤ l.sum / (l.length : ℚ) ∧ l.sum / (l.length : ℚ) ≤ hi := by
  have hlen : (0 : ℚ) < (l.length : ℚ) := by exact_mod_cast hne
  have hlo : l.length • lo ≤ l.sum := List.card_nsmul_le_sum l lo fun x hx => (h x hx).1
  have hhi : l.sum ≤ l.length • hi := List.sum_le_card_nsmul l hi fun x hx => (h x hx).2
  rw [nsmul_eq_mul] at hlo hhi
  constructor
  · rw [le_div_iff₀ hlen, mul_comm]; exact hlo
  · rw [div_le_iff₀ hlen]
    calc l.sum ≤ (l.length : ℚ) * hi := hhi
    _ = hi * (l.length : ℚ) := mul_comm _ _

lemma clampSpeed_mem (prev v : ℚ) (h0 : 0 ≤ prev) (h200 : prev ≤ 200) :
    0 ≤ clampSpeed prev v ∧ clampSpeed prev v ≤ 200 := by
  unfold clampSpeed
  split_ifs <;> constructor <;> linarith

lemma clampRpm_mem (v : ℚ) : 0 ≤ clampRpm v ∧ clampRpm v ≤ 99999 := by
  unfold clampRpm
  split_ifs <;> constructor <;> linarith

lemma filterPush_inv (buf : List ℚ) (idx cnt : Nat) (v lo hi : ℚ)
    (hlen : buf.length = 3) (hcnt : cnt ≤ 3)
    (hbuf : ∀ x ∈ buf, lo ≤ x ∧ x ≤ hi) (hv : lo ≤ v ∧ v ≤ hi) :
    (filterPush 3 buf idx cnt v).1.length = 3 ∧
    (filterPush 3 buf idx cnt v).2.2.1 ≤ 3 ∧
    (∀ x ∈ (filterPush 3 buf idx cnt v).1, lo ≤ x ∧ x ≤ hi) ∧
    (lo ≤ (filterPush 3 buf idx cnt v).2.2.2 ∧
      (filterPush 3 buf idx cnt v).2.2.2 ≤ hi) := by
  have hbuf' : ∀ x ∈ buf.set idx v, lo ≤ x ∧ x ≤ hi := by
    intro x hx
    rcases List.mem_or_eq_of_mem_set hx with hmem | heq
    · exact hbuf x hmem
    · rw [heq]; exact hv
  have hlen' : (buf.set idx v).length = 3 := by rw [List.length_set, hlen]
  have hcnt' : 0 < (if cnt < 3 then cnt + 1 else cnt) ∧
      (if cnt < 3 then cnt + 1 else cnt) ≤ 3 := by split_ifs <;> omega
  have htake : ((buf.set idx v).take (if cnt < 3 then cnt + 1 else cnt)).length =
      (if cnt < 3 then cnt + 1 else cnt) := by
    rw [List.length_take, hlen']; omega
  have hmem : ∀ x ∈ (buf.set idx v).take (if cnt < 3 then cnt + 1 else cnt),
      lo ≤ x ∧ x ≤ hi :=
    fun x hx => hbuf' x (List.take_subset _ _ hx)
  have hmean := mean_bounds _ lo hi hmem (by rw [htake]; exact hcnt'.1)
  rw [htake] at hmean
  exact ⟨hlen', hcnt'.2, hbuf', hmean⟩

lemma RangeInv_computeCycle (C : ℚ) (t : Nat) (st : SensorState) (h : RangeInv st) :
    RangeInv (computeCycle C t st).1 := by
  obtain ⟨hsl, hrl, hsc, hrc, hsb, hrb, ⟨hs0, hs200⟩, ⟨hr0, hr1⟩⟩ := h
  have hsp := filterPush_inv st.speed_buffer st.speed_filter_index st.speed_filter_count
    (clampSpeed st.current_speed_kmh
      ((edgesDeltaOf st.edge_count st.last_display_edge_count : ℚ) / EDGES_PER_ROTATION * C /
        ((elapsedDisplay st.last_display_time t : ℚ) / TIMER_FREQ) * (36 / 10)))
    0 200 hsl hsc hsb (clampSpeed_mem _ _ hs0 hs200)
  have hrp := filterPush_inv st.rpm_buffer st.rpm_filter_index st.rpm_filter_count
    (clampRpm ((edgesDeltaOf st.edge_count st.last_display_edge_count : ℚ) / EDGES_PER_ROTATION /
      ((elapsedDisplay st.last_display_time t : ℚ) / TIMER_FREQ) * 60))
    0 99999 hrl hrc hrb (clampRpm_mem _)
  unfold RangeInv computeCycle
  dsimp only
  simp only [SPEED_FILTER_SIZE, RPM_FILTER_SIZE]
  exact ⟨hsp.1, hrp.1, hsp.2.1, hrp.2.1, hsp.2.2.1, hrp.2.2.1, hsp.2.2.2, hrp.2.2.2⟩

lemma RangeInv_stallCycle (t : Nat) (st : SensorState) :
    RangeInv (stallCycle t st).1 := by
  unfold RangeInv stallCycle
  dsimp only
  refine ⟨by simp [SPEED_FILTER_SIZE], by simp [RPM_FILTER_SIZE], by omega, by omega,
    ?_, ?_, ⟨le_refl 0, by norm_num⟩, ⟨le_refl 0, by norm_num⟩⟩
  · intro x hx
    rw [List.eq_of_mem_replicate hx]
    norm_num
  · intro x hx
    rw [List.eq_of_mem_replicate hx]
    norm_num

lemma RangeInv_HandleEdge (t : Nat) (s1 s2 : Bool) (st : SensorState)
    (h : RangeInv st) : RangeInv (HandleEdge t s1 s2 st) := by
  unfold RangeInv at h ⊢
  unfold HandleEdge
  dsimp only
  split_ifs <;> exact h

lemma RangeInv_getSpeed (C : ℚ) (t : Nat) (st : SensorState) (h : RangeInv st) :
    RangeInv (Sensor_GetSpeed C t st).1 := by
  unfold Sensor_GetSpeed
  split_ifs with h1 h2
  · exact RangeInv_computeCycle C t st h
  · exact RangeInv_stallCycle t st
  · exact h

lemma RangeInv_stepEvent (st : SensorState) (ev : SensorEvent) (h : RangeInv st) :
    RangeInv (stepEvent st ev) := by
  cases ev with
  | edge t s1 s2 => exact RangeInv_HandleEdge t s1 s2 st h
  | poll C t => exact RangeInv_getSpeed C t st h

lemma RangeInv_runEvents (st : SensorState) (evs : List SensorEvent) (h : RangeInv st) :
    RangeInv (runEvents st evs) := by
  induction evs generalizing st with
  | nil => exact h
  | cons e evs ih => exact ih _ (RangeInv_stepEvent st e h)

lemma RangeInv_init (s1 s2 : Bool) (t1 t2 : Nat) :
    RangeInv (Sensor_Init s1 s2 t1 t2) := by
  unfold RangeInv Sensor_Init
  refine ⟨by simp [SPEED_FILTER_SIZE], by simp [RPM_FILTER_SIZE],
    by exact Nat.zero_le 3, by exact Nat.zero_le 3,
    ?_, ?_, ⟨le_refl 0, by norm_num⟩, ⟨le_refl 0, by norm_num⟩⟩
  · intro x hx
    rw [List.eq_of_mem_replicate hx]
    norm_num
  · intro x hx
    rw [List.eq_of_mem_replicate hx]
    norm_num

lemma getSpeed_snd (C : ℚ) (t : Nat) (st : SensorState) :
    (Sensor_GetSpeed C t st).2 = (Sensor_GetSpeed C t st).1.current_speed_kmh := by
  unfold Sensor_GetSpeed computeCycle stallCycle
  split_ifs <;> rfl

/-- Claim C10: after initialization, under every interleaving of edge
interrupts and estimator polls, the outputs stay in their clamp ranges:
`Sensor_GetSpeed` always returns a value in `[0, 200]` km/h and
`Sensor_GetRPM` always returns a value in `[0, 99999]` — every value
pushed into a filter is clamped into range or is the previous in-range
filtered value, the filtered output is a mean of in-range slots, the
stall path writes 0, and initialization writes 0. -/
theorem C10_outputs_bounded (s1 s2 : Bool) (t1 t2 : Nat) (evs : List SensorEvent)
    (C : ℚ) (t : Nat) :
    0 ≤ (Sensor_GetSpeed C t (runEvents (Sensor_Init s1 s2 t1 t2) evs)).2 ∧
    (Sensor_GetSpeed C t (runEvents (Sensor_Init s1 s2 t1 t2) evs)).2 ≤ 200 ∧
    0 ≤ Sensor_GetRPM (runEvents (Sensor_Init s1 s2 t1 t2) evs) ∧
    Sensor_GetRPM (runEvents (Sensor_Init s1 s2 t1 t2) evs) ≤ 99999 := by
  have hrun := RangeInv_runEvents (Sensor_Init s1 s2 t1 t2) evs (RangeInv_init s1 s2 t1 t2)
  have hpoll := RangeInv_getSpeed C t (runEvents (Sensor_Init s1 s2 t1 t2) evs) hrun
  obtain ⟨-, -, -, -, -, -, ⟨hp0, hp200⟩, -⟩ := hpoll
  obtain ⟨-, -, -, -, -, -, -, ⟨hr0, hr1⟩⟩ := hrun
  rw [getSpeed_snd]
  exact ⟨hp0, hp200, hr0, hr1⟩

end Tachometer
